import Mathlib

/-
Verification of the N1QL query-function extension layer
(src/LiteCore/Query/SQLiteN1QLFunctions.cc).

The embedding models one invocation of a registered function: the host
(SQLite) hands over a list of argument values and the function writes its
result through the result setters.  The result channel is modelled as a
single cell; every setter call overwrites the previous content and the
final content is the observable outcome of the call (the host's
"write the single result of the current call" convention, spec 4.A).

Doubles are modelled as exact rationals plus a NaN element.  IEEE
rounding of arithmetic is not modelled; every arithmetic result observed
by a theorem below is exactly representable, so the model agrees with
the machine on those values.
-/

namespace N1QL

/-- Byte strings of the layer (the code is byte-oriented). -/
abbrev Str := List Char

/-- An IEEE double: an exact rational or NaN (infinities do not occur in
any modelled path). -/
inductive Dbl where
  | num (q : ℚ)
  | nan
deriving DecidableEq, Repr

/-- IEEE `<` on doubles: false whenever NaN is involved. -/
def dlt : Dbl → Dbl → Bool
  | Dbl.num a, Dbl.num b => decide (a < b)
  | _, _ => false

/-- IEEE `==` on doubles: NaN compares unequal to everything, itself
included. -/
def deq : Dbl → Dbl → Bool
  | Dbl.num a, Dbl.num b => decide (a = b)
  | _, _ => false

/-- Double addition (exact on the rationals observed by the theorems;
NaN propagates). -/
def dadd : Dbl → Dbl → Dbl
  | Dbl.num a, Dbl.num b => Dbl.num (a + b)
  | _, _ => Dbl.nan

/-- Double multiplication (exact model, NaN propagates). -/
def dmul : Dbl → Dbl → Dbl
  | Dbl.num a, Dbl.num b => Dbl.num (a * b)
  | _, _ => Dbl.nan

/-- Double division (exact model; division by zero and NaN give NaN -
neither is observed by any theorem below). -/
def ddiv : Dbl → Dbl → Dbl
  | Dbl.num a, Dbl.num b => if b = 0 then Dbl.nan else Dbl.num (a / b)
  | _, _ => Dbl.nan

/-- C++ `std::max(a, b)`: returns `b` exactly when `a < b` (operator
`<`), otherwise `a`.  This is the call shape `std::max(num, max)` used
by `fl_array_max`. -/
def stdMax (a b : Dbl) : Dbl := if dlt a b then b else a

/-- C++ `std::min(a, b)`: returns `b` exactly when `b < a`, otherwise
`a`; call shape `std::min(num, max)` of `fl_array_min`. -/
def stdMin (a b : Dbl) : Dbl := if dlt b a then b else a

/-- C `abs` on doubles. -/
def dabs : Dbl → Dbl
  | Dbl.num q => Dbl.num (abs q)
  | Dbl.nan => Dbl.nan

/-- C `ceil` on doubles (exact for rationals). -/
def dceil : Dbl → Dbl
  | Dbl.num q => Dbl.num (Int.ceil q : ℤ)
  | Dbl.nan => Dbl.nan

/-- C `floor` on doubles (exact for rationals). -/
def dfloor : Dbl → Dbl
  | Dbl.num q => Dbl.num (Int.floor q : ℤ)
  | Dbl.nan => Dbl.nan

/-- C `round`: ties away from zero. -/
def dround : Dbl → Dbl
  | Dbl.num q => if 0 ≤ q then Dbl.num (Int.floor (q + 1/2) : ℤ) else Dbl.num (-(Int.floor (-q + 1/2) : ℤ) : ℤ)
  | Dbl.nan => Dbl.nan

/-- C `trunc`: rounds toward zero. -/
def dtrunc : Dbl → Dbl
  | Dbl.num q => if 0 ≤ q then Dbl.num (Int.floor q : ℤ) else Dbl.num (Int.ceil q : ℤ)
  | Dbl.nan => Dbl.nan

/-- `numeric_limits<double>::min()`: the smallest positive normal
double, 2 ^ (-1022). -/
def dblMinQ : ℚ := 1 / 2 ^ 1022

/-- `numeric_limits<double>::max()`: (2 ^ 53 - 1) * 2 ^ 971. -/
def dblMaxQ : ℚ := (2 ^ 53 - 1) * 2 ^ 971

/-- A decoded document value (the Fleece tagged tree, spec section 3):
null, boolean, number, string, raw binary, array, object. -/
inductive FLValue where
  | fNull
  | fBool (b : Bool)
  | fNumber (x : Dbl)
  | fString (s : Str)
  | fData (bytes : Str)
  | fArray (items : List FLValue)
  | fDict (entries : List (Str × FLValue))

/-- A host blob argument: its raw bytes together with what the document
codec makes of them (`none` = decode failure).  The encoding itself is
the external codec's business (spec section 6); only the byte count,
byte identity and the decoded tree are observable in this layer. -/
structure BlobVal where
  bytes : Str
  dec : Option FLValue

/-- A host (SQLite) argument value: one of the five host tags
{null, int, float, text, blob}. -/
inductive SQLiteValue where
  | vNull
  | vInt (n : Int)
  | vFloat (d : Dbl)
  | vText (s : Str)
  | vBlob (b : BlobVal)

/-- The result cell of one invocation.  `unset` means no setter was
called (the encoding of "missing"); each constructor records the last
setter call that reached the cell. -/
inductive SQLRes where
  | unset
  | rnull
  | rzeroblob
  | rint (n : Int)
  | rdouble (d : Dbl)
  | rtext (s : Str)
  | rvalue (v : SQLiteValue)
  | rblob (bs : Str)
  | rerror (msg : String) (code : Int)

/-- The `SQLITE_MISMATCH` host error code. -/
def SQLITE_MISMATCH : Int := 20

/-- The message of the hard numeric-domain error. -/
def invalidNumericMsg : String := "Invalid numeric value"

/-- The hard error written by `isNumeric` on a non-numeric argument. -/
def mismatchErr : SQLRes := SQLRes.rerror invalidNumericMsg SQLITE_MISMATCH

/-- `sqlite3_value_type(arg) == SQLITE_NULL`. -/
def isHostNull : SQLiteValue → Bool
  | SQLiteValue.vNull => true
  | _ => false

/-- `isNumeric`'s tag test: host tag is `SQLITE_FLOAT` or
`SQLITE_INTEGER`. -/
def isNumericB : SQLiteValue → Bool
  | SQLiteValue.vInt _ => true
  | SQLiteValue.vFloat _ => true
  | _ => false

/-- `sqlite3_value_bytes(arg)`: byte count of the blob/text form.  For a
host int or float the host renders the number as text, whose length is
always positive; only that positivity is observable in this layer, so
the length is modelled as 1. -/
def valueBytes : SQLiteValue → Nat
  | SQLiteValue.vNull => 0
  | SQLiteValue.vInt _ => 1
  | SQLiteValue.vFloat _ => 1
  | SQLiteValue.vText s => s.length
  | SQLiteValue.vBlob b => b.bytes.length

/-- `sqlite3_value_double(arg)`: every embedded call site is guarded by
`isNumeric`, so only the int/float rows are ever reached. -/
def valueDouble : SQLiteValue → Dbl
  | SQLiteValue.vInt n => Dbl.num n
  | SQLiteValue.vFloat d => d
  | _ => Dbl.num 0

/-- Placeholder for the host's text rendering of a double; the content
is never observed by any theorem below, only its non-nullness. -/
def floatText (_ : Dbl) : Str := ['0']

/-- Modelled from the spec: `asByteString` of the Value Bridge
(spec 4.A) as used through `valueAsSlice` - the raw bytes of the host
value, `none` being the null slice of a host-null argument.  Numbers are
rendered as text by the host. -/
def valueAsSlice : SQLiteValue → Option Str
  | SQLiteValue.vNull => none
  | SQLiteValue.vInt n => some (toString n).data
  | SQLiteValue.vFloat d => some (floatText d)
  | SQLiteValue.vText s => some s
  | SQLiteValue.vBlob b => some b.bytes

/-- Modelled from the spec: `asByteString` for the string-flavoured
accessor `valueAsStringSlice`; a host-null argument yields the empty
slice. -/
def valueAsStringSlice : SQLiteValue → Str
  | SQLiteValue.vNull => []
  | SQLiteValue.vInt n => (toString n).data
  | SQLiteValue.vFloat d => floatText d
  | SQLiteValue.vText s => s
  | SQLiteValue.vBlob b => b.bytes

/-- The bytes a slice contributes to `slice::compare`: a null slice
compares like an empty one. -/
def sliceBytes (o : Option Str) : Str := o.getD []

/-- Modelled from the spec: `asDocumentValue` (spec 4.A) - requires a
non-empty blob and returns the decoded view, or nothing on decode
failure (a zero-byte blob never decodes, spec invariant 2). -/
def fleeceDecode (b : BlobVal) : Option FLValue :=
  if b.bytes.isEmpty then none else b.dec

/-- Modelled from the spec: `fleeceParam` - decode a blob argument; on
failure the error channel is written (spec invariant 3: "reported as an
error and the function returns without setting a result") and the
caller receives nothing. -/
def fleeceParamRes (cell : SQLRes) (b : BlobVal) : SQLRes × Option FLValue :=
  match fleeceDecode b with
  | some v => (cell, some v)
  | none => (SQLRes.rerror "invalid Fleece data" SQLITE_MISMATCH, none)

/-- Modelled from the spec: member coercion to double used by the
numeric fold ("iterate members and feed each coerced to double",
spec 4.C); numbers yield their value, booleans 0/1, the rest 0. -/
def flAsDouble : FLValue → Dbl
  | FLValue.fNumber x => x
  | FLValue.fBool b => Dbl.num (if b then 1 else 0)
  | _ => Dbl.num 0

/-- `Value::type() == kArray`. -/
def isFLArray : FLValue → Bool
  | FLValue.fArray _ => true
  | _ => false

/-- `Value::type() == kNull`. -/
def isFLNull : FLValue → Bool
  | FLValue.fNull => true
  | _ => false

/-- `asArray()` iteration: the member list of an array, and no members
for any other value (the iterator of a null array view is empty). -/
def flItems : FLValue → List FLValue
  | FLValue.fArray items => items
  | _ => []

/-- The member loop of `aggregateNumericArrayOperation`: feed each
member's double to the callback, honouring the stop flag; returns the
final state and whether the callback stopped the whole call. -/
def foldNumItems {σ : Type} (op : Dbl → σ → σ × Bool) : List FLValue → σ → σ × Bool
  | [], s => (s, false)
  | v :: vs, s =>
    let r := op (flAsDouble v) s
    if r.2 then (r.1, true) else foldNumItems op vs r.1

/-- `aggregateNumericArrayOperation`: for each argument - a blob is
decoded (decode failure returns with the error channel written) and its
array members are fed to the callback; a host-null argument writes a
null result and returns; any other tag (numbers and text included)
writes a zero-byte blob and returns.  Returns the result cell as left by
the helper plus the callback state. -/
def aggNumOp {σ : Type} (op : Dbl → σ → σ × Bool) : List SQLiteValue → SQLRes → σ → SQLRes × σ
  | [], cell, s => (cell, s)
  | arg :: rest, cell, s =>
    match arg with
    | SQLiteValue.vBlob b =>
      match fleeceParamRes cell b with
      | (cell2, none) => (cell2, s)
      | (cell2, some root) =>
        let r := foldNumItems op (flItems root) s
        if r.2 then (cell2, r.1) else aggNumOp op rest cell2 r.1
    | SQLiteValue.vNull => (SQLRes.rnull, s)
    | _ => (SQLRes.rzeroblob, s)

/-- The member loop of `aggregateArrayOperation`: feed each member value
to the callback, honouring the stop flag. -/
def foldValItems {σ : Type} (op : FLValue → σ → σ × Bool) : List FLValue → σ → σ × Bool
  | [], s => (s, false)
  | v :: vs, s =>
    let r := op v s
    if r.2 then (r.1, true) else foldValItems op vs r.1

/-- `aggregateArrayOperation`: like the numeric fold but feeding typed
member views, and rejecting a decoded blob that is not an array by
writing a zero-byte blob and returning. -/
def aggValOp {σ : Type} (op : FLValue → σ → σ × Bool) : List SQLiteValue → SQLRes → σ → SQLRes × σ
  | [], cell, s => (cell, s)
  | arg :: rest, cell, s =>
    match arg with
    | SQLiteValue.vBlob b =>
      match fleeceParamRes cell b with
      | (cell2, none) => (cell2, s)
      | (cell2, some root) =>
        if isFLArray root = false then (SQLRes.rzeroblob, s)
        else
          let r := foldValItems op (flItems root) s
          if r.2 then (cell2, r.1) else aggValOp op rest cell2 r.1
    | SQLiteValue.vNull => (SQLRes.rnull, s)
    | _ => (SQLRes.rzeroblob, s)

/-- `fl_array_sum`: numeric fold accumulating the sum; the trailing
`sqlite3_result_double(ctx, sum)` call is unconditional, so it
overwrites whatever the fold left in the result cell. -/
def fl_array_sum (args : List SQLiteValue) : SQLRes :=
  let r := aggNumOp (fun num s => (dadd s num, false)) args SQLRes.unset (Dbl.num 0)
  SQLRes.rdouble r.2

/-- `fl_array_max`: numeric fold seeded with
`numeric_limits<double>::min()` (the smallest positive double) and a
`nonEmpty` flag; afterwards writes the accumulated value, or a
zero-byte blob when nothing was fed. -/
def fl_array_max (args : List SQLiteValue) : SQLRes :=
  let r := aggNumOp (fun num s => ((stdMax num s.1, true), false)) args SQLRes.unset
    (Dbl.num dblMinQ, false)
  if r.2.2 then SQLRes.rdouble r.2.1 else SQLRes.rzeroblob

/-- `fl_array_min`: numeric fold seeded with
`numeric_limits<double>::max()`, otherwise symmetric to `fl_array_max`. -/
def fl_array_min (args : List SQLiteValue) : SQLRes :=
  let r := aggNumOp (fun num s => ((stdMin num s.1, true), false)) args SQLRes.unset
    (Dbl.num dblMaxQ, false)
  if r.2.2 then SQLRes.rdouble r.2.1 else SQLRes.rzeroblob

/-- `fl_array_contains`: the comparand is the stringified second
argument; the value fold (which also revisits the comparand argument
itself) sets a found flag and stops on the first member whose
stringified form equals the comparand; the trailing
`sqlite3_result_int(ctx, found)` call is unconditional.  The external
`Value::toString` rendering is a parameter. -/
def arrayContainsFound (ts : FLValue → Str) (args : List SQLiteValue) : Bool :=
  let comparand := valueAsStringSlice (args.getD 1 SQLiteValue.vNull)
  (aggValOp (fun v found => if ts v = comparand then (true, true) else (found, false))
    args SQLRes.unset false).2

/-- The unconditional trailing write of `fl_array_contains`: whatever
the fold left in the result cell (null for a host-null argument,
zero-byte blob for a non-array argument, the decode-failure error), the
`sqlite3_result_int(ctx, found)` call replaces it with 0 or 1. -/
def fl_array_contains (ts : FLValue → Str) (args : List SQLiteValue) : SQLRes :=
  SQLRes.rint (if arrayContainsFound ts args then 1 else 0)

/-- `ifmissing`: the first argument whose host tag is not null is echoed;
if the loop falls through no result is set. -/
def fl_ifmissing : List SQLiteValue → SQLRes
  | [] => SQLRes.unset
  | a :: rest =>
    if isHostNull a then fl_ifmissing rest else SQLRes.rvalue a

/-- `ifnull`: the first argument with positive byte count is echoed;
if the loop falls through no result is set. -/
def fl_ifnull : List SQLiteValue → SQLRes
  | [] => SQLRes.unset
  | a :: rest =>
    if 0 < valueBytes a then SQLRes.rvalue a else fl_ifnull rest

/-- `ifmissingornull`: the first argument that is neither host-null nor
zero-byte is echoed; otherwise no result is set. -/
def fl_ifmissingornull : List SQLiteValue → SQLRes
  | [] => SQLRes.unset
  | a :: rest =>
    if isHostNull a = false ∧ 0 < valueBytes a then SQLRes.rvalue a
    else fl_ifmissingornull rest

/-- `nullif`: a guard writes a host-null result when either slice is
absent or empty, but does not return, so the comparison below always
overrides that write; equal slices yield a zero-byte blob, unequal ones
echo the first slice as a blob. -/
def fl_nullif (a0 a1 : SQLiteValue) : SQLRes :=
  let s0 := valueAsSlice a0
  let s1 := valueAsSlice a1
  let _deadNullWrite : SQLRes :=
    if s0 = none ∨ s1 = none ∨ sliceBytes s0 = [] ∨ sliceBytes s1 = [] then SQLRes.rnull
    else SQLRes.unset
  if sliceBytes s0 = sliceBytes s1 then SQLRes.rzeroblob else SQLRes.rblob (sliceBytes s0)

/-- `missingif`: identical to `nullif` except that equal slices write a
host-null result (which is also what the fallen-through guard wrote). -/
def fl_missingif (a0 a1 : SQLiteValue) : SQLRes :=
  let s0 := valueAsSlice a0
  let s1 := valueAsSlice a1
  let _deadNullWrite : SQLRes :=
    if s0 = none ∨ s1 = none ∨ sliceBytes s0 = [] ∨ sliceBytes s1 = [] then SQLRes.rnull
    else SQLRes.unset
  if sliceBytes s0 = sliceBytes s1 then SQLRes.rnull else SQLRes.rblob (sliceBytes s0)

/-- `string::find_first_not_of(chars)`: index of the first character not
in the set, `none` standing for `npos`. -/
def findFirstNotOf : Str → Str → Option Nat
  | [], _ => none
  | c :: cs, chars =>
    if c ∈ chars then (findFirstNotOf cs chars).map (fun i => i + 1) else some 0

/-- `string::find_last_not_of(chars)`: index of the last character not
in the set, `none` standing for `npos`. -/
def findLastNotOf (s chars : Str) : Option Nat :=
  (findFirstNotOf s.reverse chars).map (fun i => s.length - 1 - i)

/-- The `ltrim(string&, const char*)` helper with a non-null set: drop
up to the first character outside the set; when `find_first_not_of`
reports `npos` the string is left untouched. -/
def ltrimChars (s chars : Str) : Str :=
  match findFirstNotOf s chars with
  | some startPos => s.drop startPos
  | none => s

/-- The `rtrim(string&, const char*)` helper with a non-null set: keep
up to the last character outside the set; on `npos` the string is left
untouched. -/
def rtrimChars (s chars : Str) : Str :=
  match findLastNotOf s chars with
  | some endPos => s.take (endPos + 1)
  | none => s

/-
Regular expressions are delegated to the external `std::regex` engine.
The engine is modelled as a parameter: `search pat s` yields the first
match of `pat` in `s` as the decomposition `(before, matched, after)`
with `s = before ++ matched ++ after`, or `none` when `pat` does not
match anywhere in `s`.  `regexp_like`, `regexp_position` and the
iterator loop of `regexp_replace` all consult this same engine.
-/

/-- A regex engine: pattern, then subject, to the first-match
decomposition. -/
abbrev RegexEngine := Str → Str → Option (Str × Str × Str)

/-- `regexp_like` (and `regexp_contains`): 1 when `regex_search`
succeeds, else 0. -/
def fl_regexp_like (search : RegexEngine) (s pat : Str) : SQLRes :=
  SQLRes.rint (if (search pat s).isSome then 1 else 0)

/-- `regexp_position`: -1 when `regex_search` fails, otherwise the
length of the match's leading context (its byte offset). -/
def fl_regexp_position (search : RegexEngine) (s pat : Str) : SQLRes :=
  match search pat s with
  | none => SQLRes.rint (-1)
  | some (before, _, _) => SQLRes.rint before.length

/-- Does `pat` begin the string `s`? -/
def leadsWith : Str → Str → Bool
  | [], _ => true
  | _ :: _, [] => false
  | p :: ps, c :: cs => p = c && leadsWith ps cs

/-- First occurrence of `pat` as a literal substring of the subject,
as a `(before, matched, after)` decomposition. -/
def litFindAux (pat : Str) : Str → Option (Str × Str × Str)
  | [] => if pat.isEmpty then some ([], [], []) else none
  | c :: cs =>
    if leadsWith pat (c :: cs) then some ([], pat, (c :: cs).drop pat.length)
    else
      match litFindAux pat cs with
      | some (p, m, r) => some (c :: p, m, r)
      | none => none

/-- The engine instance for a metacharacter-free pattern, which
`std::regex` matches literally. -/
def litFind : RegexEngine := fun pat => litFindAux pat

/-- The `for(; n-- && iter != stop; ++iter)` loop of `regexp_replace`.
State: the remaining replacement budget `n` (the C `int`, negative
meaning effectively unbounded), the output accumulated so far, the
suffix that `last_iter` would contribute if the loop stopped now, and
the current match's decomposition.  When the budget check fails the
suffix of the last processed match (or of the first match, if none was
processed) is appended; when the next search fails the loop also ends,
after the current match was processed. -/
def rrGo (search : RegexEngine) (pat repl : Str) :
    Nat → Int → Str → Str → Str × Str × Str → Str
  | 0, _, acc, lastSuffix, _ => acc ++ lastSuffix
  | _ + 1, 0, acc, lastSuffix, _ => acc ++ lastSuffix
  | fuel + 1, n, acc, _, (before, _, rest) =>
    let acc2 := acc ++ before ++ repl
    match search pat rest with
    | none => acc2 ++ rest
    | some next => rrGo search pat repl fuel (n - 1) acc2 rest next

/-- `regexp_replace`: with a fourth argument `n` the budget is `n`,
otherwise -1 (replace all).  The subject is handed to the match
iterator; if it holds no match at all, `last_iter` is the
end-of-sequence iterator and `last_iter->suffix()` dereferences it -
undefined behaviour, modelled as `none`.  Replacement-string escapes of
`match_results::format` are not modelled (the replacement is taken
literally, faithful for `$`-free replacements). -/
def fl_regexp_replace (search : RegexEngine) (s pat repl : Str) (nArg : Option Int) :
    Option SQLRes :=
  let n : Int := nArg.getD (-1)
  match search pat s with
  | none => none
  | some first => some (SQLRes.rtext (rrGo search pat repl (s.length + 1) n [] first.2.2 first))

/-- `isNumeric`: a float/int tag passes; any other tag writes the hard
"Invalid numeric value" error with `SQLITE_MISMATCH` and reports
failure. -/
def isNumericCall (cell : SQLRes) (v : SQLiteValue) : SQLRes × Bool :=
  if isNumericB v then (cell, true) else (mismatchErr, false)

/-- `unaryFunction`: guard the single argument with `isNumeric`, then
write `fn` of its double value; on guard failure the error is the only
write. -/
def unaryFunction (fn : Dbl → Dbl) (arg : SQLiteValue) : SQLRes :=
  let g := isNumericCall SQLRes.unset arg
  if g.2 then SQLRes.rdouble (fn (valueDouble arg)) else g.1

/-- `abs` catalogue entry. -/
def fl_abs : SQLiteValue → SQLRes := unaryFunction dabs

/-- `ceil` catalogue entry. -/
def fl_ceil : SQLiteValue → SQLRes := unaryFunction dceil

/-- `floor` catalogue entry. -/
def fl_floor : SQLiteValue → SQLRes := unaryFunction dfloor

/-- `acos` catalogue entry; the libm function is a parameter. -/
def fl_acos (f : Dbl → Dbl) : SQLiteValue → SQLRes := unaryFunction f

/-- `asin` catalogue entry; the libm function is a parameter. -/
def fl_asin (f : Dbl → Dbl) : SQLiteValue → SQLRes := unaryFunction f

/-- `atan` catalogue entry; the libm function is a parameter. -/
def fl_atan (f : Dbl → Dbl) : SQLiteValue → SQLRes := unaryFunction f

/-- `cos` catalogue entry; the libm function is a parameter. -/
def fl_cos (f : Dbl → Dbl) : SQLiteValue → SQLRes := unaryFunction f

/-- `degrees` catalogue entry: `rad * 180 / M_PI`, with the double
rendering of pi as a parameter. -/
def fl_degrees (piD : Dbl) : SQLiteValue → SQLRes :=
  unaryFunction (fun rad => ddiv (dmul rad (Dbl.num 180)) piD)

/-- `exp` catalogue entry; the libm function is a parameter. -/
def fl_exp (f : Dbl → Dbl) : SQLiteValue → SQLRes := unaryFunction f

/-- `ln` catalogue entry (`log`); the libm function is a parameter. -/
def fl_ln (f : Dbl → Dbl) : SQLiteValue → SQLRes := unaryFunction f

/-- `log` catalogue entry (`log10`); the libm function is a parameter. -/
def fl_log (f : Dbl → Dbl) : SQLiteValue → SQLRes := unaryFunction f

/-- `radians` catalogue entry: `deg * M_PI / 180`. -/
def fl_radians (piD : Dbl) : SQLiteValue → SQLRes :=
  unaryFunction (fun deg => ddiv (dmul deg piD) (Dbl.num 180))

/-- `sin` catalogue entry; the libm function is a parameter. -/
def fl_sin (f : Dbl → Dbl) : SQLiteValue → SQLRes := unaryFunction f

/-- `sqrt` catalogue entry; the libm function is a parameter. -/
def fl_sqrt (f : Dbl → Dbl) : SQLiteValue → SQLRes := unaryFunction f

/-- `tan` catalogue entry; the libm function is a parameter. -/
def fl_tan (f : Dbl → Dbl) : SQLiteValue → SQLRes := unaryFunction f

/-- `fl_atan2`: both arguments are guarded left to right with
short-circuit `&&`; the first failing guard writes the error and no
result follows. -/
def fl_atan2 (f2 : Dbl → Dbl → Dbl) (a0 a1 : SQLiteValue) : SQLRes :=
  let g0 := isNumericCall SQLRes.unset a0
  if g0.2 then
    let g1 := isNumericCall g0.1 a1
    if g1.2 then SQLRes.rdouble (f2 (valueDouble a0) (valueDouble a1)) else g1.1
  else g0.1

/-- `fl_power`: same guard shape as `fl_atan2`. -/
def fl_power (f2 : Dbl → Dbl → Dbl) (a0 a1 : SQLiteValue) : SQLRes :=
  let g0 := isNumericCall SQLRes.unset a0
  if g0.2 then
    let g1 := isNumericCall g0.1 a1
    if g1.2 then SQLRes.rdouble (f2 (valueDouble a0) (valueDouble a1)) else g1.1
  else g0.1

/-- `roundTo`: guard the first argument; with a second argument guard it
too and apply the scale trick `fn(x * 10^p) / 10^p` (the `pow(10, p)`
computation is the parameter `pw`).  Any failing guard leaves only the
error write.  Arities other than 1 and 2 are not registered. -/
def roundTo (fn pw : Dbl → Dbl) (args : List SQLiteValue) : SQLRes :=
  match args with
  | [a0] =>
    let g0 := isNumericCall SQLRes.unset a0
    if g0.2 then SQLRes.rdouble (fn (valueDouble a0)) else g0.1
  | [a0, a1] =>
    let g0 := isNumericCall SQLRes.unset a0
    if g0.2 then
      let g1 := isNumericCall g0.1 a1
      if g1.2 then
        let scale := pw (valueDouble a1)
        SQLRes.rdouble (ddiv (fn (dmul (valueDouble a0) scale)) scale)
      else g1.1
    else g0.1
  | _ => SQLRes.unset

/-- `round` catalogue entry. -/
def fl_round (pw : Dbl → Dbl) (args : List SQLiteValue) : SQLRes := roundTo dround pw args

/-- `trunc` catalogue entry. -/
def fl_trunc (pw : Dbl → Dbl) (args : List SQLiteValue) : SQLRes := roundTo dtrunc pw args

/-- `fl_sign`: guard the argument, then write -1, 0 or 1 as an int. -/
def fl_sign (a0 : SQLiteValue) : SQLRes :=
  let g0 := isNumericCall SQLRes.unset a0
  if g0.2 then
    let num := valueDouble a0
    SQLRes.rint (if dlt (Dbl.num 0) num then 1 else if dlt num (Dbl.num 0) then -1 else 0)
  else g0.1

/-- The tag string of a decoded document value, as `value_type` maps the
Fleece tags. -/
def flTagName : FLValue → Str
  | FLValue.fArray _ => "array".data
  | FLValue.fBool _ => "boolean".data
  | FLValue.fData _ => "binary".data
  | FLValue.fDict _ => "object".data
  | FLValue.fNull => "null".data
  | FLValue.fNumber _ => "number".data
  | FLValue.fString _ => "string".data

/-- `value_type`: the switch on the host tag - float/int are "number",
text is "string", host null is "missing"; a blob is "null" when
zero-byte or non-decodable, otherwise the decoded fragment's own tag.
The function is total on the host domain. -/
def value_type : SQLiteValue → Str
  | SQLiteValue.vFloat _ => "number".data
  | SQLiteValue.vInt _ => "number".data
  | SQLiteValue.vText _ => "string".data
  | SQLiteValue.vNull => "missing".data
  | SQLiteValue.vBlob b =>
    if b.bytes.length = 0 then "null".data
    else
      match fleeceDecode b with
      | none => "null".data
      | some fleece => flTagName fleece

/-- The classification exactly as the spec words it, rule by rule in
order: null-tagged host value is "missing"; float/integer is "number";
text is "string"; zero-byte binary is "null"; non-decodable binary is
"null"; otherwise the document fragment's own tag.  This is the
spec-side definition, to be compared against `value_type`. -/
def specClassify (v : SQLiteValue) : Str :=
  if isHostNull v then "missing".data
  else if isNumericB v then "number".data
  else
    match v with
    | SQLiteValue.vText _ => "string".data
    | SQLiteValue.vBlob b =>
      if b.bytes.length = 0 then "null".data
      else
        match fleeceDecode b with
        | none => "null".data
        | some fleece => flTagName fleece
    | _ => "missing".data

/-- The `type` catalogue entry: the classification as a text result. -/
def fl_type (v : SQLiteValue) : SQLRes := SQLRes.rtext (value_type v)

/-- `isarray`. -/
def fl_isarray (v : SQLiteValue) : SQLRes :=
  SQLRes.rint (if value_type v = "array".data then 1 else 0)

/-- `isatom`: boolean, number or string. -/
def fl_isatom (v : SQLiteValue) : SQLRes :=
  SQLRes.rint
    (if value_type v = "boolean".data ∨ value_type v = "number".data ∨
        value_type v = "string".data then 1 else 0)

/-- `isboolean`. -/
def fl_isboolean (v : SQLiteValue) : SQLRes :=
  SQLRes.rint (if value_type v = "boolean".data then 1 else 0)

/-- `isnumber`. -/
def fl_isnumber (v : SQLiteValue) : SQLRes :=
  SQLRes.rint (if value_type v = "number".data then 1 else 0)

/-- `isobject`. -/
def fl_isobject (v : SQLiteValue) : SQLRes :=
  SQLRes.rint (if value_type v = "object".data then 1 else 0)

/-- `isstring`. -/
def fl_isstring (v : SQLiteValue) : SQLRes :=
  SQLRes.rint (if value_type v = "string".data then 1 else 0)

/-- The `tonumber(const string&)` helper: `stod` on the text, with both
`invalid_argument` and `out_of_range` caught and turned into NaN.  The
external `stod` is the parameter: `some` is a successful parse (which
may itself be NaN for inputs like "nan"), `none` a throw. -/
def tonumberStr (parse : Str → Option Dbl) (s : Str) : Dbl :=
  (parse s).getD Dbl.nan

/-- The `tonumber` catalogue entry: host null echoes as host null
(missing); numbers echo; text is parsed and the result compared against
NaN with `==` - an IEEE comparison that is false even when the result
is NaN, so the zero-blob branch is unreachable and a failed parse is
written as the double NaN; every blob yields a zero-byte blob. -/
def fl_tonumber (parse : Str → Option Dbl) (v : SQLiteValue) : SQLRes :=
  match v with
  | SQLiteValue.vNull => SQLRes.rnull
  | SQLiteValue.vInt _ => SQLRes.rvalue v
  | SQLiteValue.vFloat _ => SQLRes.rvalue v
  | SQLiteValue.vText s =>
    let result := tonumberStr parse s
    if deq result Dbl.nan then SQLRes.rzeroblob else SQLRes.rdouble result
  | SQLiteValue.vBlob _ => SQLRes.rzeroblob

/-- A concrete document argument: a non-empty blob (placeholder byte)
that the codec decodes to the given value. -/
def docVal (v : FLValue) : SQLiteValue := SQLiteValue.vBlob ⟨['F'], some v⟩

/-- The test document `doc([1,2,3])`. -/
def doc123 : SQLiteValue :=
  docVal (FLValue.fArray
    [FLValue.fNumber (Dbl.num 1), FLValue.fNumber (Dbl.num 2), FLValue.fNumber (Dbl.num 3)])

/-- The test document `doc([5.5])`. -/
def doc55 : SQLiteValue := docVal (FLValue.fArray [FLValue.fNumber (Dbl.num (11 / 2))])

/-- The test document `doc([-5])`. -/
def docNeg5 : SQLiteValue := docVal (FLValue.fArray [FLValue.fNumber (Dbl.num (-5))])

/-- C1.  The numeric fold does not feed a number-tagged host argument:
the `default` branch of the switch writes a zero-byte blob and aborts
the fold, and `fl_array_sum`'s unconditional trailing
`sqlite3_result_double` then overwrites that marker with the partial
sum.  `array_sum(doc([1,2,3]), 4, doc([5.5]))` therefore evaluates to
the double 6, not the 15.5 the claim (and the code's own comment
"Any argument that's a number will be added") promises. -/
theorem c1_array_sum_number_argument_aborts_fold :
    fl_array_sum [doc123, SQLiteValue.vInt 4, doc55] = SQLRes.rdouble (Dbl.num 6) ∧
    SQLRes.rdouble (Dbl.num 6) ≠ SQLRes.rdouble (Dbl.num (31 / 2)) := by
  refine ⟨?_, ?_⟩
  · simp [fl_array_sum, aggNumOp, foldNumItems, doc123, doc55, docVal, fleeceParamRes,
      fleeceDecode, flItems, flAsDouble, dadd]
    norm_num
  intro h
  simp only [SQLRes.rdouble.injEq, Dbl.num.injEq] at h
  exact absurd h (by norm_num)

/-- Counterexample for C4: with both arguments host-null, `nullif` does
set a result - the guard's host-null write falls through into the
comparison, whose equal branch writes a zero-byte blob (the encoding of
N1QL null, not of missing). -/
theorem c4_nullif_all_null_counterexample :
    fl_nullif SQLiteValue.vNull SQLiteValue.vNull = SQLRes.rzeroblob ∧
    SQLRes.rzeroblob ≠ SQLRes.unset ∧ SQLRes.rzeroblob ≠ SQLRes.rnull :=
  ⟨rfl, fun h => SQLRes.noConfusion h, fun h => SQLRes.noConfusion h⟩

/-- C4 as amended.  With every argument host-null: `ifmissing`,
`ifnull` and `ifmissingornull` fall through their loops and set no
result (missing); `missingif` writes an explicit host-null result
(observably missing); `nullif` writes a zero-byte blob (N1QL null). -/
theorem c4_conditionals_all_null :
    (∀ args : List SQLiteValue, (∀ a ∈ args, a = SQLiteValue.vNull) →
      fl_ifmissing args = SQLRes.unset) ∧
    (∀ args : List SQLiteValue, (∀ a ∈ args, a = SQLiteValue.vNull) →
      fl_ifnull args = SQLRes.unset) ∧
    (∀ args : List SQLiteValue, (∀ a ∈ args, a = SQLiteValue.vNull) →
      fl_ifmissingornull args = SQLRes.unset) ∧
    fl_missingif SQLiteValue.vNull SQLiteValue.vNull = SQLRes.rnull ∧
    fl_nullif SQLiteValue.vNull SQLiteValue.vNull = SQLRes.rzeroblob := by
  refine ⟨?_, ?_, ?_, rfl, rfl⟩ <;>
  · intro args h
    induction args with
    | nil => rfl
    | cons a rest ih =>
      have ha : a = SQLiteValue.vNull := h a (List.mem_cons_self a rest)
      have hrest : ∀ b ∈ rest, b = SQLiteValue.vNull := fun b hb => h b (List.mem_cons_of_mem a hb)
      subst ha
      simpa [fl_ifmissing, fl_ifnull, fl_ifmissingornull, isHostNull, valueBytes]
        using ih hrest

/-- Witness for C4: the amended statement applied to the singleton
host-null argument list. -/
theorem c4_conditionals_all_null_witness :
    fl_ifmissing [SQLiteValue.vNull] = SQLRes.unset :=
  c4_conditionals_all_null.1 [SQLiteValue.vNull] (by intro a ha; simpa using ha)

/-- C6.  `tonumber` on a string whose `stod` parse throws: the helper
returns NaN, the `result == NAN` guard is an IEEE comparison that is
false even for NaN, so the null branch is dead and the function writes
the double NaN - not the zero-byte blob (null) the claim and the code's
own comment ("All other values are NULL.") require.  The rest of the
claim holds: host null echoes as missing-null, numbers echo, any blob
yields null. -/
theorem c6_tonumber_invalid_string_is_nan (parse : Str → Option Dbl)
    (h : parse ['a', 'b', 'c'] = none) :
    fl_tonumber parse (SQLiteValue.vText ['a', 'b', 'c']) = SQLRes.rdouble Dbl.nan ∧
    SQLRes.rdouble Dbl.nan ≠ SQLRes.rzeroblob ∧
    fl_tonumber parse SQLiteValue.vNull = SQLRes.rnull ∧
    (∀ n : Int, fl_tonumber parse (SQLiteValue.vInt n) =
      SQLRes.rvalue (SQLiteValue.vInt n)) ∧
    (∀ b : BlobVal, fl_tonumber parse (SQLiteValue.vBlob b) = SQLRes.rzeroblob) := by
  refine ⟨?_, fun hh => SQLRes.noConfusion hh, rfl, fun n => rfl, fun b => rfl⟩
  simp [fl_tonumber, tonumberStr, h, deq]

/-- Witness for C6 at the concrete always-failing parse. -/
theorem c6_tonumber_witness :
    fl_tonumber (fun _ => none) (SQLiteValue.vText ['a', 'b', 'c']) =
      SQLRes.rdouble Dbl.nan :=
  (c6_tonumber_invalid_string_is_nan (fun _ => none) rfl).1

/-- C7.  `fl_array_max` seeds its accumulator with
`numeric_limits<double>::min()` - the smallest positive double, not the
lowest one - so an all-negative input never beats the seed and the
function returns 2^(-1022) instead of the maximum; `fl_array_min`,
seeded with the largest double, is correct on the same input. -/
theorem c7_array_max_seed_beats_negative_input :
    fl_array_max [docNeg5] = SQLRes.rdouble (Dbl.num dblMinQ) ∧
    Dbl.num dblMinQ ≠ Dbl.num (-5) ∧
    fl_array_min [docNeg5] = SQLRes.rdouble (Dbl.num (-5)) := by
  refine ⟨?_, ?_, ?_⟩
  · simp [fl_array_max, aggNumOp, foldNumItems, docNeg5, docVal, fleeceParamRes,
      fleeceDecode, flItems, flAsDouble, stdMax, dlt, dblMinQ]
    norm_num
  · intro h
    simp only [Dbl.num.injEq, dblMinQ] at h
    exact absurd h (by norm_num)
  · simp [fl_array_min, aggNumOp, foldNumItems, docNeg5, docVal, fleeceParamRes,
      fleeceDecode, flItems, flAsDouble, stdMin, dlt, dblMaxQ]
    norm_num

/-- C9.  `fl_array_contains` ends with an unconditional
`sqlite3_result_int(ctx, found)`: whatever the value fold wrote into
the result cell on an early abort, the final observable result is the
integer 0 or 1, for every stringification of members and every argument
list. -/
theorem c9_array_contains_result_is_0_or_1 (ts : FLValue → Str) (args : List SQLiteValue) :
    fl_array_contains ts args = SQLRes.rint 0 ∨ fl_array_contains ts args = SQLRes.rint 1 := by
  cases h : arrayContainsFound ts args
  · exact Or.inl (by simp [fl_array_contains, h])
  · exact Or.inr (by simp [fl_array_contains, h])

/-- If every character of the string belongs to the set,
`find_first_not_of` reports `npos`. -/
theorem findFirstNotOf_eq_none (s c : Str) (h : ∀ ch ∈ s, ch ∈ c) :
    findFirstNotOf s c = none := by
  induction s with
  | nil => rfl
  | cons a rest ih =>
    have ha : a ∈ c := h a (List.mem_cons_self a rest)
    have hrest : ∀ ch ∈ rest, ch ∈ c := fun ch hch => h ch (List.mem_cons_of_mem a hch)
    simp [findFirstNotOf, ha, ih hrest]

/-- C10.  When every byte of a non-empty string is in the (non-empty)
trim set, `find_first_not_of` / `find_last_not_of` report `npos`, the
substring branch is skipped, and `ltrim` / `rtrim` leave the string
unchanged rather than emptying it. -/
theorem c10_trim_all_set_chars_unchanged (s c : Str) (_hs : s ≠ []) (_hc : c ≠ [])
    (h : ∀ ch ∈ s, ch ∈ c) :
    ltrimChars s c = s ∧ rtrimChars s c = s := by
  have h1 : findFirstNotOf s c = none := findFirstNotOf_eq_none s c h
  have h2 : findFirstNotOf s.reverse c = none := by
    refine findFirstNotOf_eq_none s.reverse c ?_
    intro ch hch
    exact h ch (List.mem_reverse.mp hch)
  constructor
  · simp [ltrimChars, h1]
  · simp [rtrimChars, findLastNotOf, h2]

/-- Witness for C10: a one-byte string whose only byte is the whole
trim set. -/
theorem c10_trim_witness :
    ltrimChars ['a'] ['a'] = ['a'] ∧ rtrimChars ['a'] ['a'] = ['a'] :=
  c10_trim_all_set_chars_unchanged ['a'] ['a'] (by simp) (by simp)
    (by intro ch hch; simpa using hch)

/-- A non-numeric argument makes `unaryFunction` write only the
mismatch error. -/
theorem unaryFunction_non_numeric (fn : Dbl → Dbl) (v : SQLiteValue)
    (h : isNumericB v = false) : unaryFunction fn v = mismatchErr := by
  simp [unaryFunction, isNumericCall, h]

/-- C2.  Every scalar math function of the catalogue - the fifteen
`unaryFunction` instances (abs, acos, asin, atan, ceil, cos, degrees,
exp, floor, ln, log, radians, sin, sqrt, tan) and the multi-argument
atan2, power, round, trunc (both arities) and sign - writes the hard
error "Invalid numeric value" with `SQLITE_MISMATCH` and nothing else
whenever any argument's host tag is neither integer nor float. -/
theorem c2_math_functions_reject_non_numeric (v : SQLiteValue)
    (h : isNumericB v = false) :
    fl_abs v = mismatchErr ∧ fl_ceil v = mismatchErr ∧ fl_floor v = mismatchErr ∧
    (∀ f, fl_acos f v = mismatchErr) ∧ (∀ f, fl_asin f v = mismatchErr) ∧
    (∀ f, fl_atan f v = mismatchErr) ∧ (∀ f, fl_cos f v = mismatchErr) ∧
    (∀ p, fl_degrees p v = mismatchErr) ∧ (∀ f, fl_exp f v = mismatchErr) ∧
    (∀ f, fl_ln f v = mismatchErr) ∧ (∀ f, fl_log f v = mismatchErr) ∧
    (∀ p, fl_radians p v = mismatchErr) ∧ (∀ f, fl_sin f v = mismatchErr) ∧
    (∀ f, fl_sqrt f v = mismatchErr) ∧ (∀ f, fl_tan f v = mismatchErr) ∧
    (∀ f2 w, fl_atan2 f2 v w = mismatchErr) ∧
    (∀ f2 w, isNumericB w = true → fl_atan2 f2 w v = mismatchErr) ∧
    (∀ f2 w, fl_power f2 v w = mismatchErr) ∧
    (∀ f2 w, isNumericB w = true → fl_power f2 w v = mismatchErr) ∧
    (∀ pw, fl_round pw [v] = mismatchErr) ∧
    (∀ pw w, fl_round pw [v, w] = mismatchErr) ∧
    (∀ pw w, isNumericB w = true → fl_round pw [w, v] = mismatchErr) ∧
    (∀ pw, fl_trunc pw [v] = mismatchErr) ∧
    (∀ pw w, fl_trunc pw [v, w] = mismatchErr) ∧
    (∀ pw w, isNumericB w = true → fl_trunc pw [w, v] = mismatchErr) ∧
    fl_sign v = mismatchErr := by
  have hu : ∀ fn : Dbl → Dbl, unaryFunction fn v = mismatchErr :=
    fun fn => unaryFunction_non_numeric fn v h
  have ha1 : ∀ (f2 : Dbl → Dbl → Dbl) (w : SQLiteValue), fl_atan2 f2 v w = mismatchErr := by
    intro f2 w; simp [fl_atan2, isNumericCall, h]
  have ha2 : ∀ (f2 : Dbl → Dbl → Dbl) (w : SQLiteValue), isNumericB w = true →
      fl_atan2 f2 w v = mismatchErr := by
    intro f2 w hw; simp [fl_atan2, isNumericCall, h, hw]
  have hp1 : ∀ (f2 : Dbl → Dbl → Dbl) (w : SQLiteValue), fl_power f2 v w = mismatchErr := by
    intro f2 w; simp [fl_power, isNumericCall, h]
  have hp2 : ∀ (f2 : Dbl → Dbl → Dbl) (w : SQLiteValue), isNumericB w = true →
      fl_power f2 w v = mismatchErr := by
    intro f2 w hw; simp [fl_power, isNumericCall, h, hw]
  have hr1 : ∀ fn pw : Dbl → Dbl, roundTo fn pw [v] = mismatchErr := by
    intro fn pw; simp [roundTo, isNumericCall, h]
  have hr2 : ∀ (fn pw : Dbl → Dbl) (w : SQLiteValue), roundTo fn pw [v, w] = mismatchErr := by
    intro fn pw w; simp [roundTo, isNumericCall, h]
  have hr3 : ∀ (fn pw : Dbl → Dbl) (w : SQLiteValue), isNumericB w = true →
      roundTo fn pw [w, v] = mismatchErr := by
    intro fn pw w hw; simp [roundTo, isNumericCall, h, hw]
  have hsg : fl_sign v = mismatchErr := by simp [fl_sign, isNumericCall, h]
  exact ⟨hu dabs, hu dceil, hu dfloor, fun f => hu f, fun f => hu f, fun f => hu f,
    fun f => hu f, fun p => hu _, fun f => hu f, fun f => hu f, fun f => hu f,
    fun p => hu _, fun f => hu f, fun f => hu f, fun f => hu f,
    ha1, ha2, hp1, hp2,
    fun pw => hr1 dround pw, fun pw w => hr2 dround pw w, fun pw w hw => hr3 dround pw w hw,
    fun pw => hr1 dtrunc pw, fun pw w => hr2 dtrunc pw w, fun pw w hw => hr3 dtrunc pw w hw,
    hsg⟩

/-- Witness for C2 at a text argument. -/
theorem c2_math_witness : fl_abs (SQLiteValue.vText []) = mismatchErr :=
  (c2_math_functions_reject_non_numeric (SQLiteValue.vText []) rfl).1

/-- C3.  `value_type` realises, for every host value, exactly the
ordered rule list of the spec (host null to "missing", float/integer to
"number", text to "string", zero-byte binary to "null", non-decodable
binary to "null", otherwise the decoded fragment's tag); being a total
function it classifies every host value, and `type` and all the is*
predicates report precisely this classification. -/
theorem c3_value_type_classification (v : SQLiteValue) :
    value_type v = specClassify v ∧
    fl_type v = SQLRes.rtext (specClassify v) ∧
    fl_isarray v = SQLRes.rint (if specClassify v = "array".data then 1 else 0) ∧
    fl_isatom v = SQLRes.rint
      (if specClassify v = "boolean".data ∨ specClassify v = "number".data ∨
          specClassify v = "string".data then 1 else 0) ∧
    fl_isboolean v = SQLRes.rint (if specClassify v = "boolean".data then 1 else 0) ∧
    fl_isnumber v = SQLRes.rint (if specClassify v = "number".data then 1 else 0) ∧
    fl_isobject v = SQLRes.rint (if specClassify v = "object".data then 1 else 0) ∧
    fl_isstring v = SQLRes.rint (if specClassify v = "string".data then 1 else 0) := by
  have h : value_type v = specClassify v := by
    cases v <;> simp [value_type, specClassify, isHostNull, isNumericB]
  exact ⟨h, by simp [fl_type, h], by simp [fl_isarray, h], by simp [fl_isatom, h],
    by simp [fl_isboolean, h], by simp [fl_isnumber, h], by simp [fl_isobject, h],
    by simp [fl_isstring, h]⟩

/-- C5.  `regexp_replace` with a literal pattern: with budget 2 the
first two matches are replaced (`"aXbXcX" -> "a-b-cX"`), with no fourth
argument all matches are replaced (`"a-b-c-"`), but when the pattern
has no match at all, the loop never runs, `last_iter` remains the
end-of-sequence iterator and `last_iter->suffix()` dereferences it:
undefined behaviour (modelled `none`) instead of the claim's
"the result is s unchanged". -/
theorem c5_regexp_replace_examples :
    fl_regexp_replace litFind "aXbXcX".data "X".data "-".data (some 2) =
      some (SQLRes.rtext "a-b-cX".data) ∧
    fl_regexp_replace litFind "aXbXcX".data "X".data "-".data none =
      some (SQLRes.rtext "a-b-c-".data) ∧
    fl_regexp_replace litFind "abc".data "X".data "-".data none = none := by
  refine ⟨?_, ?_, ?_⟩ <;> rfl

/-- C8.  Against any regex engine, `regexp_position` yields a
non-negative integer exactly when `regexp_like` yields 1; with no match
it yields -1, and with a match it yields the byte offset (the length of
the text before the first match). -/
theorem c8_regexp_position_vs_like (search : RegexEngine) (s p : Str) :
    ((∃ n : Int, fl_regexp_position search s p = SQLRes.rint n ∧ 0 ≤ n) ↔
      fl_regexp_like search s p = SQLRes.rint 1) ∧
    (search p s = none → fl_regexp_position search s p = SQLRes.rint (-1)) ∧
    (∀ before m rest, search p s = some (before, m, rest) →
      fl_regexp_position search s p = SQLRes.rint (before.length : Int)) := by
  rcases hs : search p s with _ | ⟨before, m, rest⟩
  · refine ⟨?_, fun _ => by simp [fl_regexp_position, hs], ?_⟩
    · constructor
      · rintro ⟨n, hn, hge⟩
        simp only [fl_regexp_position, hs, SQLRes.rint.injEq] at hn
        omega
      · intro hlike
        simp only [fl_regexp_like, hs, Option.isSome_none, Bool.false_eq_true, if_false,
          SQLRes.rint.injEq] at hlike
        omega
    · intro b mm r hsome
      cases hsome
  · refine ⟨?_, ?_, ?_⟩
    · constructor
      · intro _
        simp [fl_regexp_like, hs]
      · intro _
        exact ⟨(before.length : Int), by simp [fl_regexp_position, hs], Int.natCast_nonneg _⟩
    · intro hnone
      cases hnone
    · intro b mm r hsome
      simp only [Option.some.injEq, Prod.mk.injEq] at hsome
      obtain ⟨h1, h2, h3⟩ := hsome
      subst h1
      simp [fl_regexp_position, hs]

/-- Witness for C8 at the engine with no matches. -/
theorem c8_witness :
    fl_regexp_position (fun _ _ => none) [] [] = SQLRes.rint (-1) :=
  (c8_regexp_position_vs_like (fun _ _ => none) [] []).2.1 rfl

end N1QL
